import Mathlib

/-!
Verification development for the tariff-impact cost engine (`src/app.py`).

The engine is embedded shallowly: pandas floats become `F := Option ℚ`
where `Option.none` models a missing value (`NaN` after `pd.to_numeric(...,
errors="coerce")`), and all arithmetic propagates missingness exactly the
way IEEE `NaN` propagates through Python float arithmetic.  Table rows
become structures, tables become lists, `DataFrame.loc[...].iloc[0]` and
`Series.get` become first-match lookups.
-/

namespace TariffApp

/-- A Python float cell: `none` models NaN (missing / failed numeric parse). -/
abbrev F := Option ℚ

/-- NaN-propagating addition, as in Python float `+`. -/
def fadd : F → F → F
  | some a, some b => some (a + b)
  | _, _ => none

/-- NaN-propagating subtraction. -/
def fsub : F → F → F
  | some a, some b => some (a - b)
  | _, _ => none

/-- NaN-propagating multiplication. -/
def fmul : F → F → F
  | some a, some b => some (a * b)
  | _, _ => none

/-- NaN-propagating division.  Python raises `ZeroDivisionError` on a zero
divisor; every division site in the source guards the divisor away from
zero (truthiness checks), so the `b = 0` branch below is unreachable there
and its value (`none`) is immaterial. -/
def fdiv : F → F → F
  | some a, some b => if b = 0 then none else some (a / b)
  | _, _ => none

/-- Python truthiness of a float cell: `0.0` is falsy, every other float —
including NaN — is truthy. -/
def truthy : F → Bool
  | some q => decide (q ≠ 0)
  | none => true

/-- Python `x <= 0` on a float cell: `False` when `x` is NaN. -/
def fleZero : F → Bool
  | some q => decide (q ≤ 0)
  | none => false

/-- Python `x > 0` on a float cell: `False` when `x` is NaN. -/
def fgtZero : F → Bool
  | some q => decide (0 < q)
  | none => false

/-- Pandas elementwise equality of a string column against a scalar that may
be NaN: NaN compares unequal to everything. -/
def omatch : Option String → String → Bool
  | some c, s => s == c
  | none, _ => false

/-- One row of the `FX` sheet: currency code and USD value of one unit. -/
structure FXRow where
  Currency : String
  USD_per_unit : F
deriving DecidableEq

/-- Lookup `Series.get(key, default)` over the FX series indexed by currency:
value of the first row with that currency, otherwise the default. -/
def seriesGet (fx : List FXRow) (key : String) (default : F) : F :=
  match fx.find? (fun r => r.Currency == key) with
  | some r => r.USD_per_unit
  | none => default

/-- Source `usd_to_chf` (src/app.py:121-128): NaN amounts convert to `0.0`; a zero
(falsy) CHF rate yields `0.0` instead of a division error; otherwise the
amount is divided by the CHF rate (dividing by a NaN rate yields NaN). -/
def usd_to_chf (amount_usd : F) (fx_rates : List FXRow) : F :=
  match amount_usd with
  | none => some 0
  | some a =>
    let usd_per_chf := seriesGet fx_rates "CHF" (some 1)
    if ¬ truthy usd_per_chf then some 0
    else fdiv (some a) usd_per_chf

/-- Source `local_to_chf` (src/app.py:131-137): the source currency rate defaults
to the FX table's USD rate (itself defaulting to `1.0`), then the USD
amount is converted through `usd_to_chf`. -/
def local_to_chf (amount : F) (currency : String) (fx_rates : List FXRow) : F :=
  match amount with
  | none => some 0
  | some a =>
    let usd_per_unit := seriesGet fx_rates currency (seriesGet fx_rates "USD" (some 1))
    usd_to_chf (fmul (some a) usd_per_unit) fx_rates

/-- One row of the user-editable tariff override table (`TariffInputs`). -/
structure TariffInputRow where
  ComponentClass : String
  OriginCountry : String
  DefaultRate_pct : F
  UserRate_pct : F
deriving DecidableEq

/-- One row of the dated US tariff schedule (`Tariffs_US`). -/
structure USTariffRow where
  ScenarioDate : String
  ComponentClass : String
  OriginCountry : String
  US_AdValoremTariff_pct : F
deriving DecidableEq

/-- Source `compute_tariff_rate` (src/app.py:140-178): override → scenario →
default → none, each tier reading the first matching row (`.iloc[0]`) and
falling through when that row's rate cell is NaN. -/
def compute_tariff_rate (component_class origin_country : Option String)
    (scenario_date : String) (tariff_inputs : List TariffInputRow)
    (tariffs_us : List USTariffRow) : ℚ × String :=
  let candidate := tariff_inputs.filter (fun r =>
    omatch component_class r.ComponentClass && omatch origin_country r.OriginCountry)
  match candidate.head?.bind (fun r => r.UserRate_pct) with
  | some override_value => (override_value / 100, "Override")
  | none =>
    let scenario_match := tariffs_us.filter (fun r =>
      r.ScenarioDate == scenario_date && omatch component_class r.ComponentClass
        && omatch origin_country r.OriginCountry)
    match scenario_match.head?.bind (fun r => r.US_AdValoremTariff_pct) with
    | some scenario_rate => (scenario_rate / 100, "Scenario " ++ scenario_date)
    | none =>
      match candidate.head?.bind (fun r => r.DefaultRate_pct) with
      | some default_rate => (default_rate / 100, "Default")
      | none => (0, "None")

/-- Modelled from the spec (§4.2): the four-tier first-match precedence
chain for `resolveTariffRate` as the spec words it — override row's user
rate, else matching scenario row's rate, else override row's default rate,
else `(0.0, "None")`. -/
def resolveTariffRate_spec (component_class origin_country : Option String)
    (scenario_date : String) (overrides : List TariffInputRow)
    (us_schedule : List USTariffRow) : ℚ × String :=
  let override_row := overrides.find? (fun r =>
    omatch component_class r.ComponentClass && omatch origin_country r.OriginCountry)
  let scenario_row := us_schedule.find? (fun r =>
    r.ScenarioDate == scenario_date && omatch component_class r.ComponentClass
      && omatch origin_country r.OriginCountry)
  match override_row.bind (fun r => r.UserRate_pct) with
  | some userRate => (userRate / 100, "Override")
  | none =>
    match scenario_row.bind (fun r => r.US_AdValoremTariff_pct) with
    | some rate => (rate / 100, "Scenario " ++ scenario_date)
    | none =>
      match override_row.bind (fun r => r.DefaultRate_pct) with
      | some defaultRate => (defaultRate / 100, "Default")
      | none => (0, "None")

theorem head_filter_eq_find {α : Type} (p : α → Bool) (l : List α) :
    (l.filter p).head? = l.find? p := by
  induction l with
  | nil => rfl
  | cons x xs ih =>
    by_cases h : p x
    · simp [List.filter_cons, List.find?_cons_of_pos, h]
    · simp [List.filter_cons, List.find?_cons_of_neg, h, ih]

/-- One row of the `Products` sheet (numeric columns after coercion). -/
structure ProductRow where
  SKU : String
  UnitWeight_kg : F
  ListPrice_USD : F
deriving DecidableEq

/-- One row of the `BOM` sheet. -/
structure BomRow where
  ParentSKU : String
  PartID : String
  Qty : F
deriving DecidableEq

/-- One row of the `Components` sheet. -/
structure ComponentRow where
  PartID : String
  Class : String
  UnitWeight_kg : F
  BasePrice_local : F
  OriginSiteID : String
deriving DecidableEq

/-- One row of the `Sites` sheet (the columns the engine reads). -/
structure SiteRow where
  SiteID : String
  Country : String
  Role : String
deriving DecidableEq

/-- One row of the `AssemblyOptions` sheet. -/
structure AssemblyOptionRow where
  SKU : String
  AssemblySiteID : String
  BaseConvCost_USD : F
  ScrapRate : F
  Yield : F
deriving DecidableEq

/-- One row of the `LogisticsLanes` sheet. -/
structure LaneRow where
  FromCountry : String
  ToCountry : String
  Cost_per_kg_USD : F
  Fixed_per_shipment_USD : F
  LeadTime_days : F
deriving DecidableEq

/-- The reference tables `compute_costs` reads from `data`. -/
structure RefData where
  Products : List ProductRow
  BOM : List BomRow
  Components : List ComponentRow
  Sites : List SiteRow
  AssemblyOptions : List AssemblyOptionRow
  LogisticsLanes : List LaneRow
  Tariffs_US : List USTariffRow
  FX : List FXRow
deriving DecidableEq

/-- The two target SKUs (src/app.py:15). -/
def TARGET_SKUS : List String := ["ACTUATOR_AX100", "ACTUATOR_AX200"]

/-- Table `COUNTRY_TO_CURRENCY` (src/app.py:16-23). -/
def COUNTRY_TO_CURRENCY : List (String × String) :=
  [("Switzerland", "CHF"), ("China", "CNY"), ("Serbia", "RSD"),
   ("United States", "USD"), ("Mexico", "MXN"), ("Germany", "EUR")]

/-- Lookup `COUNTRY_TO_CURRENCY.get(country, "USD")`. -/
def lookupCurrency (country : String) : String :=
  match COUNTRY_TO_CURRENCY.find? (fun p => p.1 == country) with
  | some p => p.2
  | none => "USD"

/-- One row of `bom_components`, the left merge of a SKU's BOM lines with
the `Components` table on `PartID` (src/app.py:249-253): when the part does
not resolve, every column coming from `Components` is NaN. -/
structure MergedRow where
  PartID : String
  Qty : F
  Class : Option String
  UnitWeight_kg : F
  BasePrice_local : F
  OriginSiteID : Option String
deriving DecidableEq

/-- The merged row of a BOM line whose part resolves to no component: all
columns coming from `Components` are NaN after the left merge. -/
def unresolvedRow (line : BomRow) : MergedRow :=
  { PartID := line.PartID, Qty := line.Qty, Class := none,
    UnitWeight_kg := none, BasePrice_local := none, OriginSiteID := none }

/-- The merged rows one BOM line contributes: one row per matching
component, or a single all-NaN-extension row when no component matches. -/
def mergeBom (line : BomRow) (components : List ComponentRow) : List MergedRow :=
  match components.filter (fun c => c.PartID == line.PartID) with
  | [] => [unresolvedRow line]
  | cs => cs.map (fun c =>
      { PartID := line.PartID, Qty := line.Qty, Class := some c.Class,
        UnitWeight_kg := c.UnitWeight_kg, BasePrice_local := c.BasePrice_local,
        OriginSiteID := some c.OriginSiteID })

/-- Merge `sku_bom.merge(components_df, how="left", on="PartID")`. -/
def bom_components (sku_bom : List BomRow) (components : List ComponentRow) :
    List MergedRow :=
  sku_bom.flatMap (fun line => mergeBom line components)

/-- Clamp `option_row.get("Yield", 1.0)` followed by `if not yield_rate:
yield_rate = 1.0` (src/app.py:241-243): only a falsy (zero) yield is
replaced by `1.0`; a NaN yield is truthy in Python and survives. -/
def pyClampYield (yield_rate : F) : F :=
  if ¬ truthy yield_rate then some 1 else yield_rate

/-- Python `max` over a nonempty list: the running value is replaced only
when the next element compares strictly greater, so comparisons against
NaN keep the running value. `max(component_leads) if component_leads else
0.0` gives the empty-list default (src/app.py:348). -/
def pymaxList (l : List F) : F :=
  match l with
  | [] => some 0
  | h :: t => t.foldl (fun acc x =>
      match x, acc with
      | some b, some a => if a < b then some b else acc
      | _, _ => acc) h

/-- Left-fold accumulation `total += v` starting from `0.0`. -/
def sumF (l : List F) : F := l.foldl fadd (some 0)

/-- One flow-edge record before the `cost_share` field is attached
(src/app.py:303-315, 380-392). -/
structure FlowEntry where
  SKU : String
  component : String
  from_site : Option String
  to_site : String
  from_country : Option String
  to_country : String
  from_role : Option String
  to_role : String
  tariff_rate : ℚ
  tariff_source : String
  cost_value : F
deriving DecidableEq

/-- A flow-edge record as emitted, with its `cost_share`. -/
structure FlowRecord extends FlowEntry where
  cost_share : F
deriving DecidableEq

/-- One row of the per-SKU summary table (src/app.py:350-367). -/
structure ScenarioResult where
  ScenarioDate : String
  AssemblySite : String
  SKU : String
  SKU_Display : String
  MaterialCost_CHF : F
  InboundLogistics_CHF : F
  OutboundLogistics_CHF : F
  Tariffs_CHF : F
  ConversionCost_CHF : F
  LandedCost_CHF : F
  ListPrice_CHF : F
  Margin_CHF : F
  MarginPct : F
  LeadTime_days : F
deriving DecidableEq

/-- The per-invocation context `compute_costs` sets up before the SKU loop:
the reference tables, the scenario date, the resolved assembly site, the
coerced override records, and the fee flag. -/
structure EngineCtx where
  data : RefData
  scenario_date : String
  assembly_site_id : String
  assembly_country : String
  assembly_role : String
  tariff_inputs : List TariffInputRow
  include_fixed_fees : Bool
deriving DecidableEq

/-- Everything the per-BOM-line body computes (src/app.py:261-316). -/
structure LineResult where
  material : F
  logistics : F
  tariffValue : F
  lead : F
  flow : FlowEntry
deriving DecidableEq

/-- The origin `Sites` row of a merged BOM line, when its `OriginSiteID`
resolves. -/
def lineOriginSite (sites : List SiteRow) (component : MergedRow) : Option SiteRow :=
  component.OriginSiteID.bind (fun s => sites.find? (fun r => r.SiteID == s))

/-- The lane-cost block the source repeats for the inbound
(src/app.py:281-292) and outbound (src/app.py:322-332) legs: cost per kg
times weight, the optional fixed fee scaled by 10000, conversion to CHF,
and the lane lead time; a missing lane gives zero cost and zero lead. -/
def lanePairOf (fx : List FXRow) (include_fixed_fees : Bool)
    (lane : Option LaneRow) (weight : F) : F × F :=
  match lane with
  | some lane_row =>
    let cost0 := fmul lane_row.Cost_per_kg_USD weight
    let cost1 := if include_fixed_fees then
        fadd cost0 (fdiv lane_row.Fixed_per_shipment_USD (some 10000))
      else cost0
    (usd_to_chf cost1 fx, lane_row.LeadTime_days)
  | none => (some 0, some 0)

/-- The body of the per-component loop (src/app.py:261-316): effective
quantity, material cost, inbound lane cost and lead time, component tariff,
and the flow entry. -/
def processLine (ctx : EngineCtx) (yield_rate : F) (sku : String)
    (component : MergedRow) : LineResult :=
  let quantity := fdiv component.Qty yield_rate
  let component_weight := fmul quantity component.UnitWeight_kg
  let origin_site := lineOriginSite ctx.data.Sites component
  let origin_country := origin_site.map (fun r => r.Country)
  let origin_role := origin_site.map (fun r => r.Role)
  let currency := match origin_country with
    | some c => lookupCurrency c
    | none => "USD"
  let material_cost := local_to_chf (fmul component.BasePrice_local quantity)
    currency ctx.data.FX
  let lane_match : Option LaneRow := match origin_country with
    | some oc => ctx.data.LogisticsLanes.find? (fun l =>
        l.FromCountry == oc && l.ToCountry == ctx.assembly_country)
    | none => none
  let lanePair := lanePairOf ctx.data.FX ctx.include_fixed_fees lane_match component_weight
  let tariffPair := if ctx.assembly_country == "United States" then
      compute_tariff_rate component.Class origin_country ctx.scenario_date
        ctx.tariff_inputs ctx.data.Tariffs_US
    else ((0 : ℚ), "Outside US")
  let component_tariff_value := fmul material_cost (some tariffPair.1)
  { material := material_cost
    logistics := lanePair.1
    tariffValue := component_tariff_value
    lead := lanePair.2
    flow := { SKU := sku, component := component.PartID,
              from_site := component.OriginSiteID,
              to_site := ctx.assembly_site_id,
              from_country := origin_country, to_country := ctx.assembly_country,
              from_role := origin_role, to_role := ctx.assembly_role,
              tariff_rate := tariffPair.1, tariff_source := tariffPair.2,
              cost_value := fadd (fadd material_cost lanePair.1) component_tariff_value } }

/-- Every value the SKU-level body of `compute_costs` computes
(src/app.py:240-397), kept explicit so the claims can speak about the
intermediate totals as well as the emitted row and edges. -/
structure SkuComp where
  lines : List LineResult
  material_total : F
  inbound_logistics_total : F
  component_tariffs_total : F
  conversion_cost_chf : F
  outbound_cost : F
  outbound_lead : F
  final_tariff_rate : ℚ
  final_tariff_source : String
  final_tariff_value : F
  landed_cost : F
  row : ScenarioResult
  keptFlows : List FlowRecord
  fgList : List FlowRecord
deriving DecidableEq

/-- The flow records a SKU appends to `flow_records`: surviving component
edges, then the finished-good edge when present. -/
def SkuComp.outFlows (c : SkuComp) : List FlowRecord := c.keptFlows ++ c.fgList

/-- The SKU-level body of `compute_costs` (src/app.py:240-397), for a SKU
that passed the product / assembly-option / nonempty-BOM guards. -/
def skuBody (ctx : EngineCtx) (sku : String) (sku_product : ProductRow)
    (option_row : AssemblyOptionRow) (sku_bom : List BomRow) : SkuComp :=
  let yield_rate := pyClampYield option_row.Yield
  let conversion_cost_chf := usd_to_chf option_row.BaseConvCost_USD ctx.data.FX
  let rows := bom_components sku_bom ctx.data.Components
  let lines := rows.map (processLine ctx yield_rate sku)
  let material_total := sumF (lines.map (fun lr => lr.material))
  let inbound_logistics_total := sumF (lines.map (fun lr => lr.logistics))
  let component_tariffs_total := sumF (lines.map (fun lr => lr.tariffValue))
  let component_leads := lines.map (fun lr => lr.lead)
  let outbound_lane := ctx.data.LogisticsLanes.find? (fun l =>
    l.FromCountry == ctx.assembly_country && l.ToCountry == "United States")
  let outboundPair := lanePairOf ctx.data.FX ctx.include_fixed_fees outbound_lane
    sku_product.UnitWeight_kg
  let finalPair := if ctx.assembly_country == "United States" then
      ((0 : ℚ), "Domestic")
    else compute_tariff_rate (some "FinalAssembly") (some ctx.assembly_country)
      ctx.scenario_date ctx.tariff_inputs ctx.data.Tariffs_US
  let final_tariff_base := fadd (fadd material_total inbound_logistics_total)
    conversion_cost_chf
  let final_tariff_value := fmul final_tariff_base (some finalPair.1)
  let total_tariffs := fadd component_tariffs_total final_tariff_value
  let total_logistics := fadd inbound_logistics_total outboundPair.1
  let landed_cost := fadd (fadd (fadd material_total total_logistics) total_tariffs)
    conversion_cost_chf
  let list_price_chf := usd_to_chf sku_product.ListPrice_USD ctx.data.FX
  let margin_chf := fsub list_price_chf landed_cost
  let margin_pct := if truthy list_price_chf then fdiv margin_chf list_price_chf
    else some 0
  let lead_time_days := fadd (pymaxList component_leads) outboundPair.2
  let keptFlows := lines.filterMap (fun lr =>
    if fleZero lr.flow.cost_value then none
    else some { toFlowEntry := lr.flow,
                cost_share := if truthy landed_cost then
                    fdiv lr.flow.cost_value landed_cost
                  else some 0 })
  let final_flow_value := fadd outboundPair.1 final_tariff_value
  let fgList := if fgtZero final_flow_value then
      [{ toFlowEntry :=
          { SKU := sku, component := "Finished Good",
            from_site := some ctx.assembly_site_id, to_site := "US_CUSTOMER",
            from_country := some ctx.assembly_country, to_country := "United States",
            from_role := some ctx.assembly_role, to_role := "Customer demand",
            tariff_rate := finalPair.1, tariff_source := finalPair.2,
            cost_value := final_flow_value },
         cost_share := if truthy landed_cost then fdiv final_flow_value landed_cost
           else some 0 }]
    else []
  { lines := lines
    material_total := material_total
    inbound_logistics_total := inbound_logistics_total
    component_tariffs_total := component_tariffs_total
    conversion_cost_chf := conversion_cost_chf
    outbound_cost := outboundPair.1
    outbound_lead := outboundPair.2
    final_tariff_rate := finalPair.1
    final_tariff_source := finalPair.2
    final_tariff_value := final_tariff_value
    landed_cost := landed_cost
    row := { ScenarioDate := ctx.scenario_date
             AssemblySite := ctx.assembly_site_id
             SKU := sku
             SKU_Display := sku.replace "ACTUATOR_" ""
             MaterialCost_CHF := material_total
             InboundLogistics_CHF := inbound_logistics_total
             OutboundLogistics_CHF := outboundPair.1
             Tariffs_CHF := total_tariffs
             ConversionCost_CHF := conversion_cost_chf
             LandedCost_CHF := landed_cost
             ListPrice_CHF := list_price_chf
             Margin_CHF := margin_chf
             MarginPct := margin_pct
             LeadTime_days := lead_time_days }
    keptFlows := keptFlows
    fgList := fgList }

/-- The guards at the top of the SKU loop (src/app.py:230-248): unknown
SKU, no assembly option for the chosen site, or an empty BOM silently skip
the SKU. -/
def processSku (ctx : EngineCtx) (sku : String) : Option SkuComp :=
  match ctx.data.Products.find? (fun p => p.SKU == sku) with
  | none => none
  | some sku_product =>
    match ctx.data.AssemblyOptions.find? (fun o =>
        o.SKU == sku && o.AssemblySiteID == ctx.assembly_site_id) with
    | none => none
    | some option_row =>
      let sku_bom := ctx.data.BOM.filter (fun b => b.ParentSKU == sku)
      if sku_bom.isEmpty then none
      else some (skuBody ctx sku sku_product option_row sku_bom)

/-- What `compute_costs` returns (src/app.py:416-425); the `breakdown`
entry is a column projection of `summary` and is not modelled separately. -/
structure ComputeResult where
  summary : List ScenarioResult
  flows : List FlowRecord
  assembly_site : String × String × String
deriving DecidableEq

/-- Source `compute_costs` (src/app.py:181-425): raises (`Except.error`) exactly
when the assembly site is not in the `Sites` table, otherwise runs the SKU
loop over the two target SKUs and concatenates rows and flow records. -/
def compute_costs (data : RefData) (scenario_date : String)
    (assembly_site_id : String) (tariff_records : List TariffInputRow)
    (include_fixed_fees : Bool) : Except String ComputeResult :=
  match data.Sites.find? (fun s => s.SiteID == assembly_site_id) with
  | none => Except.error ("Unknown assembly site: " ++ assembly_site_id)
  | some assembly_site =>
    let ctx : EngineCtx :=
      { data := data, scenario_date := scenario_date,
        assembly_site_id := assembly_site_id,
        assembly_country := assembly_site.Country,
        assembly_role := assembly_site.Role,
        tariff_inputs := tariff_records,
        include_fixed_fees := include_fixed_fees }
    let comps := TARGET_SKUS.filterMap (processSku ctx)
    Except.ok { summary := comps.map (fun c => c.row),
                flows := comps.flatMap (fun c => c.outFlows),
                assembly_site := (assembly_site_id, assembly_site.Country,
                  assembly_site.Role) }

/-! ### Computation lemmas for the float model -/

theorem fadd_some_some (a b : ℚ) : fadd (some a) (some b) = some (a + b) := rfl

theorem fadd_none_left (b : F) : fadd none b = none := rfl

theorem fadd_none_right (a : F) : fadd a none = none := by cases a <;> rfl

theorem fsub_some_some (a b : ℚ) : fsub (some a) (some b) = some (a - b) := rfl

theorem fmul_some_some (a b : ℚ) : fmul (some a) (some b) = some (a * b) := rfl

theorem fmul_none_left (b : F) : fmul none b = none := rfl

theorem fmul_none_right (a : F) : fmul a none = none := by cases a <;> rfl

theorem fdiv_some_some (a b : ℚ) (h : b ≠ 0) :
    fdiv (some a) (some b) = some (a / b) := by
  simp [fdiv, h]

theorem fdiv_none_left (b : F) : fdiv none b = none := rfl

theorem fdiv_none_right (a : F) : fdiv a none = none := by cases a <;> rfl

theorem truthy_none : truthy none = true := rfl

theorem truthy_some_ne (q : ℚ) (h : q ≠ 0) : truthy (some q) = true := by
  simp [truthy, h]

theorem truthy_some_zero : truthy (some 0) = false := by simp [truthy]

theorem fleZero_none : fleZero none = false := rfl

theorem fleZero_some (q : ℚ) : fleZero (some q) = decide (q ≤ 0) := rfl

theorem fgtZero_none : fgtZero none = false := rfl

theorem fgtZero_some (q : ℚ) : fgtZero (some q) = decide (0 < q) := rfl

theorem fadd_comm (a b : F) : fadd a b = fadd b a := by
  cases a <;> cases b <;> simp [fadd, add_comm]

theorem fadd_assoc (a b c : F) : fadd (fadd a b) c = fadd a (fadd b c) := by
  cases a <;> cases b <;> cases c <;> simp [fadd, add_assoc]

theorem fadd_left_comm (a b c : F) : fadd a (fadd b c) = fadd b (fadd a c) := by
  rw [← fadd_assoc, fadd_comm a b, fadd_assoc]

theorem fadd_zero_left (a : F) : fadd (some 0) a = a := by
  cases a <;> simp [fadd]

theorem fadd_zero_right (a : F) : fadd a (some 0) = a := by
  cases a <;> simp [fadd]

theorem sumF_nil : sumF [] = some 0 := rfl

theorem foldl_fadd_eq (l : List F) (a : F) : l.foldl fadd a = fadd a (sumF l) := by
  induction l generalizing a with
  | nil => simp [sumF, fadd_zero_right]
  | cons x xs ih =>
    simp only [sumF, List.foldl_cons]
    rw [ih (fadd a x), ih (fadd (some 0) x), fadd_zero_left, fadd_assoc]

theorem sumF_cons (x : F) (l : List F) : sumF (x :: l) = fadd x (sumF l) := by
  simp only [sumF, List.foldl_cons]
  rw [foldl_fadd_eq, fadd_zero_left]
  rfl

theorem sumF_filter_split (p : F → Bool) (l : List F) :
    fadd (sumF (l.filter (fun x => ! p x))) (sumF (l.filter p)) = sumF l := by
  induction l with
  | nil => simp [sumF, fadd]
  | cons x xs ih =>
    by_cases h : p x
    · simp only [List.filter_cons, h, Bool.not_true, Bool.false_eq_true, if_false, if_true]
      rw [sumF_cons, fadd_left_comm, ih]
      rw [sumF_cons]
    · simp only [List.filter_cons, h, Bool.not_false, Bool.false_eq_true, if_false, if_true]
      rw [sumF_cons, fadd_assoc, ih]
      rw [sumF_cons]

theorem sumF_map_fadd {α : Type} (u v : α → F) (l : List α) :
    sumF (l.map (fun x => fadd (u x) (v x))) =
      fadd (sumF (l.map u)) (sumF (l.map v)) := by
  induction l with
  | nil => simp [sumF, fadd]
  | cons x xs ih =>
    simp only [List.map_cons, sumF_cons, ih]
    rw [fadd_assoc, fadd_left_comm (v x), ← fadd_assoc]

theorem sumF_all_zero {α : Type} (f : α → F) (l : List α)
    (h : ∀ x ∈ l, f x = some 0) : sumF (l.map f) = some 0 := by
  induction l with
  | nil => rfl
  | cons x xs ih =>
    simp only [List.map_cons, sumF_cons]
    rw [h x (by simp), ih (fun y hy => h y (by simp [hy])), fadd_zero_left]

theorem filterMap_drop_if {α β : Type} (p : α → Bool) (g : α → β) (l : List α) :
    l.filterMap (fun x => if p x then none else some (g x)) =
      (l.filter (fun x => ! p x)).map g := by
  induction l with
  | nil => rfl
  | cons x xs ih =>
    by_cases h : p x
    · simp [List.filterMap_cons, List.filter_cons, h, ih]
    · simp [List.filterMap_cons, List.filter_cons, h, ih]

theorem pymax_map_some (l : ℚ) (ls : List ℚ) :
    pymaxList ((l :: ls).map some) = some (ls.foldl max l) := by
  simp only [pymaxList, List.map_cons]
  induction ls generalizing l with
  | nil => rfl
  | cons x xs ih =>
    simp only [List.map_cons, List.foldl_cons]
    rw [← ih (max l x)]
    congr 1
    by_cases h : l < x
    · simp [h, max_eq_right (le_of_lt h)]
    · simp [h, max_eq_left (le_of_not_lt h)]

/-! ### Projection equations for the engine bodies (all definitional) -/

theorem processLine_cost_value (ctx : EngineCtx) (y : F) (sku : String) (m : MergedRow) :
    (processLine ctx y sku m).flow.cost_value =
      fadd (fadd (processLine ctx y sku m).material (processLine ctx y sku m).logistics)
        (processLine ctx y sku m).tariffValue := rfl

theorem processLine_tariffPair (ctx : EngineCtx) (y : F) (sku : String) (m : MergedRow) :
    ((processLine ctx y sku m).flow.tariff_rate, (processLine ctx y sku m).flow.tariff_source)
      = (if ctx.assembly_country == "United States" then
          compute_tariff_rate m.Class
            ((lineOriginSite ctx.data.Sites m).map (fun r => r.Country))
            ctx.scenario_date ctx.tariff_inputs ctx.data.Tariffs_US
        else ((0 : ℚ), "Outside US")) := rfl

theorem processLine_tariffValue (ctx : EngineCtx) (y : F) (sku : String) (m : MergedRow) :
    (processLine ctx y sku m).tariffValue =
      fmul (processLine ctx y sku m).material
        (some (processLine ctx y sku m).flow.tariff_rate) := rfl

theorem processLine_material (ctx : EngineCtx) (y : F) (sku : String) (m : MergedRow) :
    (processLine ctx y sku m).material =
      local_to_chf (fmul m.BasePrice_local (fdiv m.Qty y))
        (match (lineOriginSite ctx.data.Sites m).map (fun r => r.Country) with
          | some c => lookupCurrency c
          | none => "USD") ctx.data.FX := rfl

theorem processLine_lanePair (ctx : EngineCtx) (y : F) (sku : String) (m : MergedRow) :
    ((processLine ctx y sku m).logistics, (processLine ctx y sku m).lead) =
      lanePairOf ctx.data.FX ctx.include_fixed_fees
        (match (lineOriginSite ctx.data.Sites m).map (fun r => r.Country) with
          | some oc => ctx.data.LogisticsLanes.find? (fun l =>
              l.FromCountry == oc && l.ToCountry == ctx.assembly_country)
          | none => none)
        (fmul (fdiv m.Qty y) m.UnitWeight_kg) := rfl

theorem skuBody_lines (ctx : EngineCtx) (sku : String) (p : ProductRow)
    (o : AssemblyOptionRow) (bom : List BomRow) :
    (skuBody ctx sku p o bom).lines =
      (bom_components bom ctx.data.Components).map
        (processLine ctx (pyClampYield o.Yield) sku) := rfl

theorem skuBody_material_total (ctx : EngineCtx) (sku : String) (p : ProductRow)
    (o : AssemblyOptionRow) (bom : List BomRow) :
    (skuBody ctx sku p o bom).material_total =
      sumF ((skuBody ctx sku p o bom).lines.map (fun lr => lr.material)) := rfl

theorem skuBody_inbound_total (ctx : EngineCtx) (sku : String) (p : ProductRow)
    (o : AssemblyOptionRow) (bom : List BomRow) :
    (skuBody ctx sku p o bom).inbound_logistics_total =
      sumF ((skuBody ctx sku p o bom).lines.map (fun lr => lr.logistics)) := rfl

theorem skuBody_tariffs_total (ctx : EngineCtx) (sku : String) (p : ProductRow)
    (o : AssemblyOptionRow) (bom : List BomRow) :
    (skuBody ctx sku p o bom).component_tariffs_total =
      sumF ((skuBody ctx sku p o bom).lines.map (fun lr => lr.tariffValue)) := rfl

theorem skuBody_conversion (ctx : EngineCtx) (sku : String) (p : ProductRow)
    (o : AssemblyOptionRow) (bom : List BomRow) :
    (skuBody ctx sku p o bom).conversion_cost_chf =
      usd_to_chf o.BaseConvCost_USD ctx.data.FX := rfl

theorem skuBody_outboundPair (ctx : EngineCtx) (sku : String) (p : ProductRow)
    (o : AssemblyOptionRow) (bom : List BomRow) :
    ((skuBody ctx sku p o bom).outbound_cost, (skuBody ctx sku p o bom).outbound_lead) =
      lanePairOf ctx.data.FX ctx.include_fixed_fees
        (ctx.data.LogisticsLanes.find? (fun l =>
          l.FromCountry == ctx.assembly_country && l.ToCountry == "United States"))
        p.UnitWeight_kg := rfl

theorem skuBody_finalPair (ctx : EngineCtx) (sku : String) (p : ProductRow)
    (o : AssemblyOptionRow) (bom : List BomRow) :
    ((skuBody ctx sku p o bom).final_tariff_rate, (skuBody ctx sku p o bom).final_tariff_source)
      = (if ctx.assembly_country == "United States" then ((0 : ℚ), "Domestic")
        else compute_tariff_rate (some "FinalAssembly") (some ctx.assembly_country)
          ctx.scenario_date ctx.tariff_inputs ctx.data.Tariffs_US) := rfl

theorem skuBody_ftv (ctx : EngineCtx) (sku : String) (p : ProductRow)
    (o : AssemblyOptionRow) (bom : List BomRow) :
    (skuBody ctx sku p o bom).final_tariff_value =
      fmul (fadd (fadd (skuBody ctx sku p o bom).material_total
          (skuBody ctx sku p o bom).inbound_logistics_total)
          (skuBody ctx sku p o bom).conversion_cost_chf)
        (some (skuBody ctx sku p o bom).final_tariff_rate) := rfl

theorem skuBody_landed (ctx : EngineCtx) (sku : String) (p : ProductRow)
    (o : AssemblyOptionRow) (bom : List BomRow) :
    (skuBody ctx sku p o bom).landed_cost =
      fadd (fadd (fadd (skuBody ctx sku p o bom).material_total
          (fadd (skuBody ctx sku p o bom).inbound_logistics_total
            (skuBody ctx sku p o bom).outbound_cost))
          (fadd (skuBody ctx sku p o bom).component_tariffs_total
            (skuBody ctx sku p o bom).final_tariff_value))
        (skuBody ctx sku p o bom).conversion_cost_chf := rfl

theorem skuBody_row_material (ctx : EngineCtx) (sku : String) (p : ProductRow)
    (o : AssemblyOptionRow) (bom : List BomRow) :
    (skuBody ctx sku p o bom).row.MaterialCost_CHF =
      (skuBody ctx sku p o bom).material_total := rfl

theorem skuBody_row_inbound (ctx : EngineCtx) (sku : String) (p : ProductRow)
    (o : AssemblyOptionRow) (bom : List BomRow) :
    (skuBody ctx sku p o bom).row.InboundLogistics_CHF =
      (skuBody ctx sku p o bom).inbound_logistics_total := rfl

theorem skuBody_row_outbound (ctx : EngineCtx) (sku : String) (p : ProductRow)
    (o : AssemblyOptionRow) (bom : List BomRow) :
    (skuBody ctx sku p o bom).row.OutboundLogistics_CHF =
      (skuBody ctx sku p o bom).outbound_cost := rfl

theorem skuBody_row_tariffs (ctx : EngineCtx) (sku : String) (p : ProductRow)
    (o : AssemblyOptionRow) (bom : List BomRow) :
    (skuBody ctx sku p o bom).row.Tariffs_CHF =
      fadd (skuBody ctx sku p o bom).component_tariffs_total
        (skuBody ctx sku p o bom).final_tariff_value := rfl

theorem skuBody_row_conversion (ctx : EngineCtx) (sku : String) (p : ProductRow)
    (o : AssemblyOptionRow) (bom : List BomRow) :
    (skuBody ctx sku p o bom).row.ConversionCost_CHF =
      (skuBody ctx sku p o bom).conversion_cost_chf := rfl

theorem skuBody_row_landed (ctx : EngineCtx) (sku : String) (p : ProductRow)
    (o : AssemblyOptionRow) (bom : List BomRow) :
    (skuBody ctx sku p o bom).row.LandedCost_CHF =
      (skuBody ctx sku p o bom).landed_cost := rfl

theorem skuBody_row_listPrice (ctx : EngineCtx) (sku : String) (p : ProductRow)
    (o : AssemblyOptionRow) (bom : List BomRow) :
    (skuBody ctx sku p o bom).row.ListPrice_CHF =
      usd_to_chf p.ListPrice_USD ctx.data.FX := rfl

theorem skuBody_row_margin (ctx : EngineCtx) (sku : String) (p : ProductRow)
    (o : AssemblyOptionRow) (bom : List BomRow) :
    (skuBody ctx sku p o bom).row.Margin_CHF =
      fsub (skuBody ctx sku p o bom).row.ListPrice_CHF
        (skuBody ctx sku p o bom).landed_cost := rfl

theorem skuBody_row_marginPct (ctx : EngineCtx) (sku : String) (p : ProductRow)
    (o : AssemblyOptionRow) (bom : List BomRow) :
    (skuBody ctx sku p o bom).row.MarginPct =
      (if truthy (skuBody ctx sku p o bom).row.ListPrice_CHF then
        fdiv (skuBody ctx sku p o bom).row.Margin_CHF
          (skuBody ctx sku p o bom).row.ListPrice_CHF
      else some 0) := rfl

theorem skuBody_keptFlows (ctx : EngineCtx) (sku : String) (p : ProductRow)
    (o : AssemblyOptionRow) (bom : List BomRow) :
    (skuBody ctx sku p o bom).keptFlows =
      (skuBody ctx sku p o bom).lines.filterMap (fun lr =>
        if fleZero lr.flow.cost_value then none
        else some
          { toFlowEntry := lr.flow,
            cost_share := if truthy (skuBody ctx sku p o bom).landed_cost then
                fdiv lr.flow.cost_value (skuBody ctx sku p o bom).landed_cost
              else some 0 }) := rfl

theorem skuBody_fgList (ctx : EngineCtx) (sku : String) (p : ProductRow)
    (o : AssemblyOptionRow) (bom : List BomRow) :
    (skuBody ctx sku p o bom).fgList =
      (if fgtZero (fadd (skuBody ctx sku p o bom).outbound_cost
          (skuBody ctx sku p o bom).final_tariff_value) then
        [{ toFlowEntry :=
              { SKU := sku, component := "Finished Good",
                from_site := some ctx.assembly_site_id, to_site := "US_CUSTOMER",
                from_country := some ctx.assembly_country, to_country := "United States",
                from_role := some ctx.assembly_role, to_role := "Customer demand",
                tariff_rate := (skuBody ctx sku p o bom).final_tariff_rate,
                tariff_source := (skuBody ctx sku p o bom).final_tariff_source,
                cost_value := fadd (skuBody ctx sku p o bom).outbound_cost
                  (skuBody ctx sku p o bom).final_tariff_value },
            cost_share := if truthy (skuBody ctx sku p o bom).landed_cost then
                fdiv (fadd (skuBody ctx sku p o bom).outbound_cost
                  (skuBody ctx sku p o bom).final_tariff_value)
                  (skuBody ctx sku p o bom).landed_cost
              else some 0 }]
      else []) := rfl

/-! ### Concrete fixtures used by witnesses and counterexamples -/

/-- A one-SKU, one-component dataset assembled in the United States with a
positive conversion cost and no logistics lanes. -/
def dataUS : RefData :=
  { Products := [{ SKU := "ACTUATOR_AX100", UnitWeight_kg := some 1, ListPrice_USD := some 200 }]
    BOM := [{ ParentSKU := "ACTUATOR_AX100", PartID := "P1", Qty := some 2 }]
    Components := [{ PartID := "P1", Class := "motor", UnitWeight_kg := some 1,
                     BasePrice_local := some 50, OriginSiteID := "S1" }]
    Sites := [{ SiteID := "S1", Country := "United States", Role := "Assembly" }]
    AssemblyOptions := [{ SKU := "ACTUATOR_AX100", AssemblySiteID := "S1",
                          BaseConvCost_USD := some 10, ScrapRate := some 0, Yield := some 1 }]
    LogisticsLanes := []
    Tariffs_US := []
    FX := [] }

/-- The engine context `compute_costs dataUS _ "S1" [] false` sets up. -/
def ctxUS : EngineCtx :=
  { data := dataUS, scenario_date := "2025-01-01", assembly_site_id := "S1",
    assembly_country := "United States", assembly_role := "Assembly",
    tariff_inputs := [], include_fixed_fees := false }

/-- The merged BOM row of `dataUS`: part P1 resolved against its component. -/
def rowUS : MergedRow :=
  { PartID := "P1", Qty := some 2, Class := some "motor",
    UnitWeight_kg := some 1, BasePrice_local := some 50, OriginSiteID := some "S1" }

/-- A two-component dataset assembled in Mexico, with inbound lanes of lead
times 5 and 12 days and an outbound lane of 3 days. -/
def dataMX : RefData :=
  { Products := [{ SKU := "ACTUATOR_AX100", UnitWeight_kg := some 2, ListPrice_USD := some 300 }]
    BOM := [{ ParentSKU := "ACTUATOR_AX100", PartID := "P1", Qty := some 1 },
            { ParentSKU := "ACTUATOR_AX100", PartID := "P2", Qty := some 1 }]
    Components := [{ PartID := "P1", Class := "motor", UnitWeight_kg := some 1,
                     BasePrice_local := some 10, OriginSiteID := "SA" },
                   { PartID := "P2", Class := "housing", UnitWeight_kg := some 1,
                     BasePrice_local := some 20, OriginSiteID := "SB" }]
    Sites := [{ SiteID := "SA", Country := "Germany", Role := "Supplier" },
              { SiteID := "SB", Country := "China", Role := "Supplier" },
              { SiteID := "SM", Country := "Mexico", Role := "Assembly" }]
    AssemblyOptions := [{ SKU := "ACTUATOR_AX100", AssemblySiteID := "SM",
                          BaseConvCost_USD := some 5, ScrapRate := some 0, Yield := some 1 }]
    LogisticsLanes := [{ FromCountry := "Germany", ToCountry := "Mexico",
                         Cost_per_kg_USD := some 1, Fixed_per_shipment_USD := some 0,
                         LeadTime_days := some 5 },
                       { FromCountry := "China", ToCountry := "Mexico",
                         Cost_per_kg_USD := some 1, Fixed_per_shipment_USD := some 0,
                         LeadTime_days := some 12 },
                       { FromCountry := "Mexico", ToCountry := "United States",
                         Cost_per_kg_USD := some 1, Fixed_per_shipment_USD := some 0,
                         LeadTime_days := some 3 }]
    Tariffs_US := []
    FX := [] }

/-- The engine context `compute_costs dataMX _ "SM" [] false` sets up. -/
def ctxMX : EngineCtx :=
  { data := dataMX, scenario_date := "2025-01-01", assembly_site_id := "SM",
    assembly_country := "Mexico", assembly_role := "Assembly",
    tariff_inputs := [], include_fixed_fees := false }

/-- Product row of `dataMX`. -/
def productMX : ProductRow :=
  { SKU := "ACTUATOR_AX100", UnitWeight_kg := some 2, ListPrice_USD := some 300 }

/-- Assembly option row of `dataMX`. -/
def optionMX : AssemblyOptionRow :=
  { SKU := "ACTUATOR_AX100", AssemblySiteID := "SM",
    BaseConvCost_USD := some 5, ScrapRate := some 0, Yield := some 1 }

/-- BOM of `dataMX`. -/
def bomMX : List BomRow :=
  [{ ParentSKU := "ACTUATOR_AX100", PartID := "P1", Qty := some 1 },
   { ParentSKU := "ACTUATOR_AX100", PartID := "P2", Qty := some 1 }]

/-! ### Claims -/

/-- Claim C1: for every component class, origin country, scenario date,
override table and US tariff schedule, `compute_tariff_rate` implements the
first-match-wins precedence chain the spec states: present-and-numeric user
override rate (`Override`), else matching dated schedule rate
(`Scenario <date>`), else numeric default rate of the override row
(`Default`), else exactly `(0.0, "None")`. -/
theorem claim_C1 (component_class origin_country : Option String)
    (scenario_date : String) (tariff_inputs : List TariffInputRow)
    (tariffs_us : List USTariffRow) :
    compute_tariff_rate component_class origin_country scenario_date
        tariff_inputs tariffs_us =
      resolveTariffRate_spec component_class origin_country scenario_date
        tariff_inputs tariffs_us := by
  simp only [compute_tariff_rate, resolveTariffRate_spec, head_filter_eq_find]

/-- Claim C3: `compute_costs` fails with the distinguished unknown-site
error exactly when the assembly site identifier has no `Sites` row, for
every scenario date, override table and fee flag; when the site is present
it returns a result. -/
theorem claim_C3 (data : RefData) (scenario_date assembly_site_id : String)
    (tariff_records : List TariffInputRow) (include_fixed_fees : Bool) :
    (compute_costs data scenario_date assembly_site_id tariff_records include_fixed_fees
        = Except.error ("Unknown assembly site: " ++ assembly_site_id)
      ↔ data.Sites.find? (fun s => s.SiteID == assembly_site_id) = none)
    ∧ ((data.Sites.find? (fun s => s.SiteID == assembly_site_id)).isSome →
        ∃ r, compute_costs data scenario_date assembly_site_id tariff_records
          include_fixed_fees = Except.ok r) := by
  constructor
  · constructor
    · intro h
      cases hfind : data.Sites.find? (fun s => s.SiteID == assembly_site_id) with
      | none => rfl
      | some s => simp [compute_costs, hfind] at h
    · intro h
      simp [compute_costs, h]
  · intro h
    rw [Option.isSome_iff_exists] at h
    obtain ⟨s, hs⟩ := h
    cases hcc : compute_costs data scenario_date assembly_site_id tariff_records
        include_fixed_fees with
    | error e =>
      exfalso
      unfold compute_costs at hcc
      rw [hs] at hcc
      simp at hcc
    | ok r => exact ⟨r, rfl⟩

/-- Witness for C3 at a concrete dataset: site `S1` is present, so the
engine returns `Except.ok`. -/
theorem claim_C3_witness :
    ((dataUS.Sites.find? (fun s => s.SiteID == "S1")).isSome = true)
    ∧ ∃ r, compute_costs dataUS "2025-01-01" "S1" [] false = Except.ok r :=
  ⟨rfl, (claim_C3 dataUS "2025-01-01" "S1" [] false).2 rfl⟩

/-- Claim C6 counterexample: with an absent (NaN) yield the code does not
treat the yield as `1.0` — Python's `if not yield_rate` is false for NaN,
so the effective quantity becomes NaN (here: declared quantity 2 gives
`none`, not `2/1.0 = 2`) and the line's material cost degrades to `0`. -/
theorem claim_C6_counterexample :
    fdiv (some 2) (pyClampYield none) = none
    ∧ fdiv (some 2) (some 1) = some 2
    ∧ (none : F) ≠ some (2 : ℚ)
    ∧ (processLine ctxUS (pyClampYield none) "ACTUATOR_AX100" rowUS).material = some 0 := by
  refine ⟨rfl, ?_, by simp, rfl⟩
  rw [fdiv_some_some 2 1 one_ne_zero]
  norm_num

/-- Claim C6 (amended): the yield divisor is clamped to `1.0` only when it
is zero (Python falsiness); an absent (NaN) yield propagates and makes the
effective quantity NaN rather than raising; a nonzero numeric yield is kept;
in no case is the divisor the number zero, so the quantity division never
divides by zero. -/
theorem claim_C6 (q y : F) :
    pyClampYield y ≠ some 0
    ∧ fdiv q (pyClampYield (some 0)) = fdiv q (some 1)
    ∧ fdiv q (pyClampYield none) = none
    ∧ (∀ r : ℚ, r ≠ 0 → pyClampYield (some r) = some r) := by
  refine ⟨?_, ?_, ?_, ?_⟩
  · cases y with
    | none => simp [pyClampYield, truthy_none]
    | some r =>
      by_cases hr : r = 0
      · subst hr
        simp [pyClampYield, truthy_some_zero]
      · simp [pyClampYield, truthy_some_ne r hr]
        exact hr
  · simp [pyClampYield, truthy_some_zero]
  · simp [pyClampYield, truthy_none, fdiv_none_right]
  · intro r hr
    simp [pyClampYield, truthy_some_ne r hr]

/-- Witness for C6 at a concrete nonzero yield. -/
theorem claim_C6_witness :
    ((1 : ℚ) / 2 ≠ 0) ∧ pyClampYield (some (1 / 2)) = some (1 / 2) :=
  ⟨by norm_num, (claim_C6 (some 0) (some 0)).2.2.2 (1 / 2) (by norm_num)⟩

/-- The reported lead time is the Python max of the per-line lead times plus
the outbound lead (src/app.py:348). -/
theorem skuBody_leadTime (ctx : EngineCtx) (sku : String) (p : ProductRow)
    (o : AssemblyOptionRow) (bom : List BomRow) :
    (skuBody ctx sku p o bom).row.LeadTime_days =
      fadd (pymaxList ((skuBody ctx sku p o bom).lines.map (fun lr => lr.lead)))
        (skuBody ctx sku p o bom).outbound_lead := rfl

/-- Claim C7: when every per-line inbound lead time is numeric (a missing
lane contributes `0`) and the outbound lead is numeric, the reported lead
time is the maximum of the inbound lead times plus the outbound lead time —
inbound leads are never summed. -/
theorem claim_C7 (ctx : EngineCtx) (sku : String) (p : ProductRow)
    (o : AssemblyOptionRow) (bom : List BomRow) (l ol : ℚ) (ls : List ℚ)
    (hleads : (skuBody ctx sku p o bom).lines.map (fun lr => lr.lead) = (l :: ls).map some)
    (hout : (skuBody ctx sku p o bom).outbound_lead = some ol) :
    (skuBody ctx sku p o bom).row.LeadTime_days = some (ls.foldl max l + ol) := by
  rw [skuBody_leadTime, hleads, hout, pymax_map_some, fadd_some_some]

/-- Witness for C7: inbound lead times 5 and 12 with outbound lead 3 give
exactly 15. -/
theorem claim_C7_witness :
    (skuBody ctxMX "ACTUATOR_AX100" productMX optionMX bomMX).row.LeadTime_days
      = some 15 := by
  have h := claim_C7 ctxMX "ACTUATOR_AX100" productMX optionMX bomMX 5 3 [12] rfl rfl
  rw [h]
  norm_num

/-- Claim C8: a BOM line whose part resolves to no component row merges to
the all-NaN extension row, which contributes zero material, zero logistics,
zero tariff, zero lead time and a zero-valued flow edge; and whether the
SKU rollup succeeds is decided only by the product / assembly-option / BOM
guards, never by component resolution. -/
theorem claim_C8 (components : List ComponentRow) (line : BomRow) :
    ((∀ comp ∈ components, comp.PartID ≠ line.PartID) →
      mergeBom line components = [unresolvedRow line]
      ∧ ∀ (ctx : EngineCtx) (y : F) (sku : String),
          (processLine ctx y sku (unresolvedRow line)).material = some 0
          ∧ (processLine ctx y sku (unresolvedRow line)).logistics = some 0
          ∧ (processLine ctx y sku (unresolvedRow line)).tariffValue = some 0
          ∧ (processLine ctx y sku (unresolvedRow line)).lead = some 0
          ∧ (processLine ctx y sku (unresolvedRow line)).flow.cost_value = some 0)
    ∧ ∀ (ctx : EngineCtx) (sku : String),
        (processSku ctx sku).isSome =
          ((ctx.data.Products.find? (fun p => p.SKU == sku)).isSome
            && ((ctx.data.AssemblyOptions.find? (fun o =>
                  o.SKU == sku && o.AssemblySiteID == ctx.assembly_site_id)).isSome
              && !(ctx.data.BOM.filter (fun b => b.ParentSKU == sku)).isEmpty)) := by
  constructor
  · intro h
    constructor
    · have hfilter : components.filter (fun c => c.PartID == line.PartID) = [] := by
        rw [List.filter_eq_nil_iff]
        intro c hc
        simpa using h c hc
      simp [mergeBom, hfilter]
    · intro ctx y sku
      refine ⟨rfl, rfl, ?_, rfl, ?_⟩ <;>
        simp [processLine, unresolvedRow, lineOriginSite, lanePairOf, fmul_none_left,
          local_to_chf, fmul, fadd, zero_mul]
  · intro ctx sku
    cases hp : ctx.data.Products.find? (fun p => p.SKU == sku) with
    | none => simp [processSku, hp]
    | some p =>
      cases ho : ctx.data.AssemblyOptions.find? (fun o =>
          o.SKU == sku && o.AssemblySiteID == ctx.assembly_site_id) with
      | none => simp [processSku, hp, ho]
      | some o =>
        by_cases hb : (ctx.data.BOM.filter (fun b => b.ParentSKU == sku)).isEmpty
        · simp [processSku, hp, ho, hb]
        · simp [processSku, hp, ho, hb]

/-- Witness for C8 at a concrete unresolvable part. -/
theorem claim_C8_witness :
    mergeBom { ParentSKU := "ACTUATOR_AX100", PartID := "P9", Qty := some 2 } dataUS.Components
      = [unresolvedRow { ParentSKU := "ACTUATOR_AX100", PartID := "P9", Qty := some 2 }]
    ∧ (processLine ctxUS (some 1) "ACTUATOR_AX100"
        (unresolvedRow { ParentSKU := "ACTUATOR_AX100", PartID := "P9", Qty := some 2 })).material
      = some 0 := by
  have h := (claim_C8 dataUS.Components
    { ParentSKU := "ACTUATOR_AX100", PartID := "P9", Qty := some 2 }).1 (by
      intro c hc
      simp [dataUS] at hc
      subst hc
      simp)
  exact ⟨h.1, (h.2 ctxUS (some 1) "ACTUATOR_AX100").1⟩

/-- Claim C9: the engine is a pure function of its five inputs — the
embedding of `compute_costs` is total and deterministic, so two invocations
with identical reference tables, scenario date, assembly site, override
rows and fee flag return identical summaries, flow lists and assembly
metadata, and no invocation can affect another. -/
theorem claim_C9 (data : RefData) (scenario_date assembly_site_id : String)
    (tariff_records : List TariffInputRow) (include_fixed_fees : Bool) :
    compute_costs data scenario_date assembly_site_id tariff_records include_fixed_fees
      = compute_costs data scenario_date assembly_site_id tariff_records
          include_fixed_fees := rfl

/-- With the reporting currency absent from the FX table, a numeric USD
amount converts to itself. -/
theorem usd_to_chf_absent (fx : List FXRow)
    (h : fx.find? (fun r => r.Currency == "CHF") = none) (q : ℚ) :
    usd_to_chf (some q) fx = some q := by
  show (if ¬ truthy (seriesGet fx "CHF" (some 1)) then some 0
    else fdiv (some q) (seriesGet fx "CHF" (some 1))) = some q
  rw [seriesGet, h, truthy_some_ne 1 one_ne_zero]
  simp only [not_true, if_false]
  rw [fdiv_some_some _ _ one_ne_zero, div_one]

/-- Claim C4 counterexample: with FX table `[USD ↦ 2.0]`, the code converts
an amount in the absent currency `EUR` by falling back to the table's USD
rate `2.0`, not to `1.0`: `local_to_chf 1 "EUR"` gives `2`, while treating
the absent code's rate as `1.0` (identity through the USD intermediate)
would give `usd_to_chf 1 = 1`. -/
theorem claim_C4_counterexample :
    ([{ Currency := "USD", USD_per_unit := some 2 }] : List FXRow).find?
        (fun r => r.Currency == "EUR") = none
    ∧ local_to_chf (some 1) "EUR" [{ Currency := "USD", USD_per_unit := some 2 }] = some 2
    ∧ usd_to_chf (some 1) [{ Currency := "USD", USD_per_unit := some 2 }] = some 1
    ∧ (some (2 : ℚ)) ≠ (some (1 : ℚ)) := by
  refine ⟨rfl, ?_, ?_, by norm_num⟩
  · show usd_to_chf (fmul (some 1) (some 2))
      [{ Currency := "USD", USD_per_unit := some 2 }] = some 2
    rw [fmul_some_some]
    show fdiv (some (1 * 2)) (some 1) = some 2
    rw [fdiv_some_some _ _ one_ne_zero]
    norm_num
  · show fdiv (some 1) (some 1) = some 1
    rw [fdiv_some_some _ _ one_ne_zero]
    norm_num

/-- Claim C4 (amended): a currency code absent from the FX table falls back
to the table's USD rate, which itself defaults to `1.0`; hence conversion
from an absent code is identity through the USD intermediate exactly when
the USD entry is also absent, and an absent reporting currency (CHF) makes
the USD→CHF step divide by `1.0` (identity on numeric USD amounts). -/
theorem claim_C4 (fx : List FXRow) (a : F) (currency : String) (q : ℚ)
    (hcur : fx.find? (fun r => r.Currency == currency) = none) :
    local_to_chf a currency fx = usd_to_chf (fmul a (seriesGet fx "USD" (some 1))) fx
    ∧ (fx.find? (fun r => r.Currency == "USD") = none →
        local_to_chf a currency fx = usd_to_chf a fx)
    ∧ (fx.find? (fun r => r.Currency == "CHF") = none →
        usd_to_chf (some q) fx = some q) := by
  refine ⟨?_, ?_, ?_⟩
  · cases a with
    | none => simp [local_to_chf, fmul_none_left, usd_to_chf]
    | some x =>
      show usd_to_chf (fmul (some x) (seriesGet fx currency (seriesGet fx "USD" (some 1)))) fx
        = usd_to_chf (fmul (some x) (seriesGet fx "USD" (some 1))) fx
      rw [seriesGet, hcur]
  · intro husd
    cases a with
    | none => simp [local_to_chf, usd_to_chf]
    | some x =>
      show usd_to_chf (fmul (some x) (seriesGet fx currency (seriesGet fx "USD" (some 1)))) fx
        = usd_to_chf (some x) fx
      rw [seriesGet, hcur, seriesGet, husd, fmul_some_some, mul_one]
  · intro hchf
    show (if ¬ truthy (seriesGet fx "CHF" (some 1)) then some 0
      else fdiv (some q) (seriesGet fx "CHF" (some 1))) = some q
    rw [seriesGet, hchf]
    rw [truthy_some_ne 1 one_ne_zero]
    simp only [not_true, if_false]
    rw [fdiv_some_some _ _ one_ne_zero, div_one]

/-- Witness for C4 at the empty FX table: conversion from the absent `EUR`
equals plain USD conversion, and an absent CHF rate converts identically. -/
theorem claim_C4_witness :
    (([] : List FXRow).find? (fun r => r.Currency == "EUR") = none)
    ∧ local_to_chf (some 3) "EUR" [] = usd_to_chf (some 3) []
    ∧ usd_to_chf (some 7) [] = some 7 :=
  ⟨rfl, (claim_C4 [] (some 3) "EUR" 7 rfl).2.1 rfl,
    (claim_C4 [] (some 3) "EUR" 7 rfl).2.2 rfl⟩

theorem fleZero_some_pos (q : ℚ) (h : 0 < q) : fleZero (some q) = false := by
  simp [fleZero, not_le.mpr h]

theorem fleZero_some_nonpos (q : ℚ) (h : q ≤ 0) : fleZero (some q) = true := by
  simp [fleZero, h]

theorem fgtZero_some_pos (q : ℚ) (h : 0 < q) : fgtZero (some q) = true := by
  simp [fgtZero, h]

theorem fgtZero_some_nonpos (q : ℚ) (h : q ≤ 0) : fgtZero (some q) = false := by
  simp [fgtZero, not_lt.mpr h]

/-- Splitting the component-edge value sum into the surviving edges and the
filtered-out (`cost_value ≤ 0`) edges, for any share annotation. -/
theorem sumF_kept_dropped (L : List LineResult) (mk : LineResult → F) :
    fadd (sumF ((L.filterMap (fun lr =>
        if fleZero lr.flow.cost_value then none
        else some ({ toFlowEntry := lr.flow, cost_share := mk lr } : FlowRecord))).map
          (fun fr => fr.cost_value)))
      (sumF ((L.map (fun lr => lr.flow.cost_value)).filter fleZero))
      = sumF (L.map (fun lr => lr.flow.cost_value)) := by
  induction L with
  | nil => simp [sumF_nil, fadd_zero_left]
  | cons x xs ih =>
    by_cases h : fleZero x.flow.cost_value
    · simp only [List.filterMap_cons, List.map_cons, List.filter_cons, h, if_true]
      rw [sumF_cons, sumF_cons, fadd_left_comm, ih]
    · simp only [List.filterMap_cons, List.map_cons, List.filter_cons, h,
        Bool.false_eq_true, if_false]
      rw [sumF_cons, sumF_cons, fadd_assoc, ih]

/-- Product row of `dataUS`. -/
def productUS : ProductRow :=
  { SKU := "ACTUATOR_AX100", UnitWeight_kg := some 1, ListPrice_USD := some 200 }

/-- Assembly option row of `dataUS`. -/
def optionUS : AssemblyOptionRow :=
  { SKU := "ACTUATOR_AX100", AssemblySiteID := "S1",
    BaseConvCost_USD := some 10, ScrapRate := some 0, Yield := some 1 }

/-- BOM of `dataUS`. -/
def bomUS : List BomRow :=
  [{ ParentSKU := "ACTUATOR_AX100", PartID := "P1", Qty := some 2 }]

/-- Claim C2 (amended): for every SKU body, the landed cost equals the sum
of all component edge values plus the finished-good value plus the
conversion cost (the conversion cost sits in the landed cost but on no
edge); the emitted component edges are exactly those whose value is not
`≤ 0` and their values plus the dropped values sum to the full component
total; and the finished-good edge is emitted exactly when its value is
strictly positive. -/
theorem claim_C2 (ctx : EngineCtx) (sku : String) (p : ProductRow)
    (o : AssemblyOptionRow) (bom : List BomRow) :
    fadd (fadd (sumF ((skuBody ctx sku p o bom).lines.map (fun lr => lr.flow.cost_value)))
        (fadd (skuBody ctx sku p o bom).outbound_cost
          (skuBody ctx sku p o bom).final_tariff_value))
      (skuBody ctx sku p o bom).row.ConversionCost_CHF
      = (skuBody ctx sku p o bom).row.LandedCost_CHF
    ∧ fadd (sumF ((skuBody ctx sku p o bom).keptFlows.map (fun fr => fr.cost_value)))
        (sumF (((skuBody ctx sku p o bom).lines.map (fun lr => lr.flow.cost_value)).filter
          fleZero))
      = sumF ((skuBody ctx sku p o bom).lines.map (fun lr => lr.flow.cost_value))
    ∧ (skuBody ctx sku p o bom).fgList.map (fun fr => fr.cost_value)
      = (if fgtZero (fadd (skuBody ctx sku p o bom).outbound_cost
            (skuBody ctx sku p o bom).final_tariff_value) then
          [fadd (skuBody ctx sku p o bom).outbound_cost
            (skuBody ctx sku p o bom).final_tariff_value]
        else []) := by
  refine ⟨?_, ?_, ?_⟩
  · have hcv : (skuBody ctx sku p o bom).lines.map (fun lr => lr.flow.cost_value)
        = (skuBody ctx sku p o bom).lines.map (fun lr =>
            fadd (fadd lr.material lr.logistics) lr.tariffValue) := by
      apply List.map_congr_left
      intro lr hlr
      rw [skuBody_lines] at hlr
      obtain ⟨m, hm, rfl⟩ := List.mem_map.mp hlr
      exact processLine_cost_value ctx (pyClampYield o.Yield) sku m
    rw [hcv, sumF_map_fadd, sumF_map_fadd, ← skuBody_material_total,
      ← skuBody_inbound_total, ← skuBody_tariffs_total, skuBody_row_conversion,
      skuBody_row_landed, skuBody_landed]
    simp [fadd_assoc, fadd_comm, fadd_left_comm]
  · rw [skuBody_keptFlows]
    exact sumF_kept_dropped (skuBody ctx sku p o bom).lines
      (fun lr => if truthy (skuBody ctx sku p o bom).landed_cost then
          fdiv lr.flow.cost_value (skuBody ctx sku p o bom).landed_cost
        else some 0)
  · rw [skuBody_fgList]
    by_cases h : fgtZero (fadd (skuBody ctx sku p o bom).outbound_cost
        (skuBody ctx sku p o bom).final_tariff_value)
    · simp [h]
    · simp [h]

/-- Claim C2 counterexample: in `dataUS` (conversion cost 10) the single
emitted edge carries 100, nothing is filtered out (the finished-good value
is 0 and absent), yet the landed cost is 110 — the claimed identity "sum of
emitted edges = landedCost − filtered-out values" fails by the conversion
cost. -/
theorem claim_C2_counterexample :
    (compute_costs dataUS "2025-01-01" "S1" [] false).toOption.map
        (fun r => (r.flows.map (fun fr => fr.cost_value),
          r.summary.map (fun row => (row.LandedCost_CHF, row.ConversionCost_CHF))))
      = some ([some 100], [(some 110, some 10)])
    ∧ (((skuBody ctxUS "ACTUATOR_AX100" productUS optionUS bomUS).lines.map (fun lr => lr.flow.cost_value)).filter fleZero = [])
    ∧ fadd (skuBody ctxUS "ACTUATOR_AX100" productUS optionUS bomUS).outbound_cost (skuBody ctxUS "ACTUATOR_AX100" productUS optionUS bomUS).final_tariff_value = some 0
    ∧ (skuBody ctxUS "ACTUATOR_AX100" productUS optionUS bomUS).fgList = []
    ∧ fadd (some 100) (some 0) ≠ (some 110 : F) := by
  have hy : pyClampYield optionUS.Yield = some 1 := by
    show pyClampYield (some 1) = some 1
    simp [pyClampYield, truthy_some_ne 1 one_ne_zero]
  have hlines : (skuBody ctxUS "ACTUATOR_AX100" productUS optionUS bomUS).lines = [(processLine ctxUS (some 1) "ACTUATOR_AX100" rowUS)] := by
    rw [skuBody_lines, hy]
    rfl
  have hm100 : (processLine ctxUS (some 1) "ACTUATOR_AX100" rowUS).material = some 100 := by
    rw [processLine_material]
    show local_to_chf (fmul (some 50) (fdiv (some 2) (some 1))) "USD" [] = some 100
    rw [fdiv_some_some 2 1 one_ne_zero, fmul_some_some]
    show usd_to_chf (fmul (some (50 * (2 / 1))) (some 1)) [] = some 100
    rw [fmul_some_some, usd_to_chf_absent [] rfl]
    norm_num
  have hlog : (processLine ctxUS (some 1) "ACTUATOR_AX100" rowUS).logistics = some 0 := rfl
  have hrate : (processLine ctxUS (some 1) "ACTUATOR_AX100" rowUS).flow.tariff_rate = 0 := rfl
  have htar : (processLine ctxUS (some 1) "ACTUATOR_AX100" rowUS).tariffValue = some 0 := by
    rw [processLine_tariffValue, hm100, hrate]
    simp only [fmul_some_some, mul_zero]
  have hcv : (processLine ctxUS (some 1) "ACTUATOR_AX100" rowUS).flow.cost_value = some 100 := by
    rw [processLine_cost_value, hm100, hlog, htar]
    simp only [fadd_some_some]
    norm_num
  have hM : (skuBody ctxUS "ACTUATOR_AX100" productUS optionUS bomUS).material_total = some 100 := by
    rw [skuBody_material_total, hlines, List.map_cons, List.map_nil, hm100,
      sumF_cons, sumF_nil]
    simp only [fadd_some_some]
    norm_num
  have hI : (skuBody ctxUS "ACTUATOR_AX100" productUS optionUS bomUS).inbound_logistics_total = some 0 := by
    rw [skuBody_inbound_total, hlines, List.map_cons, List.map_nil, hlog,
      sumF_cons, sumF_nil]
    simp only [fadd_some_some]
    norm_num
  have hT : (skuBody ctxUS "ACTUATOR_AX100" productUS optionUS bomUS).component_tariffs_total = some 0 := by
    rw [skuBody_tariffs_total, hlines, List.map_cons, List.map_nil, htar,
      sumF_cons, sumF_nil]
    simp only [fadd_some_some]
    norm_num
  have hConv : (skuBody ctxUS "ACTUATOR_AX100" productUS optionUS bomUS).conversion_cost_chf = some 10 := by
    rw [skuBody_conversion]
    show usd_to_chf (some 10) [] = some 10
    exact usd_to_chf_absent [] rfl 10
  have hOut : (skuBody ctxUS "ACTUATOR_AX100" productUS optionUS bomUS).outbound_cost = some 0 := rfl
  have hFrate : (skuBody ctxUS "ACTUATOR_AX100" productUS optionUS bomUS).final_tariff_rate = 0 := rfl
  have hFtv : (skuBody ctxUS "ACTUATOR_AX100" productUS optionUS bomUS).final_tariff_value = some 0 := by
    rw [skuBody_ftv, hM, hI, hConv, hFrate]
    simp only [fadd_some_some, fmul_some_some, mul_zero]
  have hLanded : (skuBody ctxUS "ACTUATOR_AX100" productUS optionUS bomUS).landed_cost = some 110 := by
    rw [skuBody_landed, hM, hI, hOut, hT, hFtv, hConv]
    simp only [fadd_some_some]
    norm_num
  have hfgv : fadd (skuBody ctxUS "ACTUATOR_AX100" productUS optionUS bomUS).outbound_cost (skuBody ctxUS "ACTUATOR_AX100" productUS optionUS bomUS).final_tariff_value = some 0 := by
    rw [hOut, hFtv]
    simp only [fadd_some_some, add_zero]
  have hfg : (skuBody ctxUS "ACTUATOR_AX100" productUS optionUS bomUS).fgList = [] := by
    rw [skuBody_fgList, hfgv, fgtZero_some_nonpos 0 le_rfl]
    simp
  have hkept : (skuBody ctxUS "ACTUATOR_AX100" productUS optionUS bomUS).keptFlows.map (fun fr => fr.cost_value) = [some 100] := by
    rw [skuBody_keptFlows, hlines]
    simp only [List.filterMap_cons, List.filterMap_nil, hcv,
      fleZero_some_pos 100 (by norm_num), Bool.false_eq_true, if_false]
    simp [hcv]
  have hdropped : ((skuBody ctxUS "ACTUATOR_AX100" productUS optionUS bomUS).lines.map (fun lr => lr.flow.cost_value)).filter fleZero = [] := by
    rw [hlines]
    simp [hcv, fleZero_some_pos 100 (by norm_num)]
  have hcc : compute_costs dataUS "2025-01-01" "S1" [] false
      = Except.ok
        { summary := [(skuBody ctxUS "ACTUATOR_AX100" productUS optionUS bomUS).row]
          flows := (skuBody ctxUS "ACTUATOR_AX100" productUS optionUS bomUS).outFlows ++ []
          assembly_site := ("S1", "United States", "Assembly") } := rfl
  refine ⟨?_, hdropped, hfgv, hfg, ?_⟩
  · rw [hcc]
    simp only [Except.toOption, Option.map_some]
    refine congrArg some ?_
    refine Prod.ext ?_ ?_
    · show ((skuBody ctxUS "ACTUATOR_AX100" productUS optionUS bomUS).outFlows ++ []).map (fun fr : FlowRecord => fr.cost_value) = ([some 100] : List F)
      rw [List.append_nil, SkuComp.outFlows, hfg, List.append_nil, hkept]
    · show [((skuBody ctxUS "ACTUATOR_AX100" productUS optionUS bomUS).row.LandedCost_CHF, (skuBody ctxUS "ACTUATOR_AX100" productUS optionUS bomUS).row.ConversionCost_CHF)] = ([(some 110, some 10)] : List (F × F))
      rw [skuBody_row_landed, hLanded, skuBody_row_conversion, hConv]
  · rw [fadd_some_some]
    simp only [ne_eq, Option.some.injEq]
    norm_num

/-- Claim C5: outside the United States every component tariff event is
`(0.0, "Outside US")` and one final tariff is resolved with the
`"FinalAssembly"` sentinel class and the assembly country as origin,
applied to material + inbound logistics + conversion cost; inside the
United States the final-assembly leg is `(0.0, "Domestic")` and component
tariffs are resolved per BOM line through the resolver. -/
theorem claim_C5 (ctx : EngineCtx) (sku : String) (p : ProductRow)
    (o : AssemblyOptionRow) (bom : List BomRow) :
    (ctx.assembly_country ≠ "United States" →
      (∀ lr ∈ (skuBody ctx sku p o bom).lines,
          lr.flow.tariff_rate = 0 ∧ lr.flow.tariff_source = "Outside US")
      ∧ ((skuBody ctx sku p o bom).final_tariff_rate,
          (skuBody ctx sku p o bom).final_tariff_source)
          = compute_tariff_rate (some "FinalAssembly") (some ctx.assembly_country)
              ctx.scenario_date ctx.tariff_inputs ctx.data.Tariffs_US
      ∧ (skuBody ctx sku p o bom).final_tariff_value
          = fmul (fadd (fadd (skuBody ctx sku p o bom).material_total
                (skuBody ctx sku p o bom).inbound_logistics_total)
              (skuBody ctx sku p o bom).conversion_cost_chf)
            (some (skuBody ctx sku p o bom).final_tariff_rate))
    ∧ (ctx.assembly_country = "United States" →
      ((skuBody ctx sku p o bom).final_tariff_rate = 0
        ∧ (skuBody ctx sku p o bom).final_tariff_source = "Domestic")
      ∧ ∀ (y : F) (m : MergedRow),
          ((processLine ctx y sku m).flow.tariff_rate,
            (processLine ctx y sku m).flow.tariff_source)
            = compute_tariff_rate m.Class
                ((lineOriginSite ctx.data.Sites m).map (fun r => r.Country))
                ctx.scenario_date ctx.tariff_inputs ctx.data.Tariffs_US) := by
  constructor
  · intro h
    have hbeq : (ctx.assembly_country == "United States") = false :=
      beq_eq_false_iff_ne.mpr h
    refine ⟨?_, ?_, skuBody_ftv ctx sku p o bom⟩
    · intro lr hlr
      rw [skuBody_lines] at hlr
      obtain ⟨m, hm, rfl⟩ := List.mem_map.mp hlr
      have hp := processLine_tariffPair ctx (pyClampYield o.Yield) sku m
      rw [hbeq] at hp
      simp only [Bool.false_eq_true, if_false] at hp
      rw [Prod.mk.injEq] at hp
      exact hp
    · have hp := skuBody_finalPair ctx sku p o bom
      rw [hbeq] at hp
      simpa only [Bool.false_eq_true, if_false] using hp
  · intro h
    have hbeq : (ctx.assembly_country == "United States") = true := by
      rw [h]
      exact beq_self_eq_true "United States"
    constructor
    · have hp := skuBody_finalPair ctx sku p o bom
      rw [hbeq] at hp
      simp only [if_true] at hp
      rw [Prod.mk.injEq] at hp
      exact hp
    · intro y m
      have hp := processLine_tariffPair ctx y sku m
      rw [hbeq] at hp
      simpa only [if_true] using hp

/-- Witness for C5: a Mexico-assembly body resolves its final tariff
through the resolver with the `"FinalAssembly"` sentinel, and a US-assembly
body's final leg is `(0, "Domestic")`. -/
theorem claim_C5_witness :
    ((skuBody ctxMX "ACTUATOR_AX100" productMX optionMX bomMX).final_tariff_rate,
      (skuBody ctxMX "ACTUATOR_AX100" productMX optionMX bomMX).final_tariff_source)
      = compute_tariff_rate (some "FinalAssembly") (some ctxMX.assembly_country)
          ctxMX.scenario_date ctxMX.tariff_inputs ctxMX.data.Tariffs_US
    ∧ ((skuBody ctxUS "ACTUATOR_AX100" productUS optionUS bomUS).final_tariff_rate = 0
       ∧ (skuBody ctxUS "ACTUATOR_AX100" productUS optionUS bomUS).final_tariff_source
          = "Domestic") :=
  ⟨(((claim_C5 ctxMX "ACTUATOR_AX100" productMX optionMX bomMX).1 (by
      intro h
      exact absurd h (by simp [ctxMX]))).2).1,
   ((claim_C5 ctxUS "ACTUATOR_AX100" productUS optionUS bomUS).2 rfl).1⟩

/-- A zero CHF rate collapses every USD conversion to `0.0`. -/
theorem usd_to_chf_chf_zero (fx : List FXRow)
    (h : seriesGet fx "CHF" (some 1) = some 0) (a : F) :
    usd_to_chf a fx = some 0 := by
  cases a with
  | none => rfl
  | some x =>
    show (if ¬ truthy (seriesGet fx "CHF" (some 1)) then some 0
      else fdiv (some x) (seriesGet fx "CHF" (some 1))) = some 0
    rw [h, truthy_some_zero]
    simp

/-- A zero CHF rate collapses every local-currency conversion to `0.0`. -/
theorem local_to_chf_chf_zero (fx : List FXRow)
    (h : seriesGet fx "CHF" (some 1) = some 0) (a : F) (currency : String) :
    local_to_chf a currency fx = some 0 := by
  cases a with
  | none => rfl
  | some x =>
    show usd_to_chf (fmul (some x)
      (seriesGet fx currency (seriesGet fx "USD" (some 1)))) fx = some 0
    exact usd_to_chf_chf_zero fx h _

/-- A zero CHF rate collapses the converted lane cost to `0.0`. -/
theorem lanePairOf_fst_chf_zero (fx : List FXRow)
    (h : seriesGet fx "CHF" (some 1) = some 0) (fees : Bool)
    (lane : Option LaneRow) (w : F) :
    (lanePairOf fx fees lane w).1 = some 0 := by
  cases lane with
  | none => rfl
  | some r => exact usd_to_chf_chf_zero fx h _

/-- A zero CHF rate collapses every per-line cost to `0.0`. -/
theorem processLine_chf_zero (ctx : EngineCtx)
    (h : seriesGet ctx.data.FX "CHF" (some 1) = some 0)
    (y : F) (sku : String) (m : MergedRow) :
    (processLine ctx y sku m).material = some 0
    ∧ (processLine ctx y sku m).logistics = some 0
    ∧ (processLine ctx y sku m).tariffValue = some 0
    ∧ (processLine ctx y sku m).flow.cost_value = some 0 := by
  have hm : (processLine ctx y sku m).material = some 0 := by
    rw [processLine_material]
    exact local_to_chf_chf_zero _ h _ _
  have hl : (processLine ctx y sku m).logistics = some 0 := by
    have hp : (processLine ctx y sku m).logistics
        = (lanePairOf ctx.data.FX ctx.include_fixed_fees
            (match (lineOriginSite ctx.data.Sites m).map (fun r => r.Country) with
              | some oc => ctx.data.LogisticsLanes.find? (fun l =>
                  l.FromCountry == oc && l.ToCountry == ctx.assembly_country)
              | none => none)
            (fmul (fdiv m.Qty y) m.UnitWeight_kg)).1 :=
      congrArg Prod.fst (processLine_lanePair ctx y sku m)
    rw [hp]
    exact lanePairOf_fst_chf_zero _ h _ _ _
  have ht : (processLine ctx y sku m).tariffValue = some 0 := by
    rw [processLine_tariffValue, hm]
    simp [fmul_some_some, zero_mul]
  refine ⟨hm, hl, ht, ?_⟩
  rw [processLine_cost_value, hm, hl, ht]
  simp [fadd_some_some]

/-- A zero CHF rate collapses every SKU-level cost output to `0.0` and
filters every edge out. -/
theorem skuBody_chf_zero (ctx : EngineCtx) (sku : String) (p : ProductRow)
    (o : AssemblyOptionRow) (bom : List BomRow)
    (h : seriesGet ctx.data.FX "CHF" (some 1) = some 0) :
    (skuBody ctx sku p o bom).row.MaterialCost_CHF = some 0
    ∧ (skuBody ctx sku p o bom).row.InboundLogistics_CHF = some 0
    ∧ (skuBody ctx sku p o bom).row.OutboundLogistics_CHF = some 0
    ∧ (skuBody ctx sku p o bom).row.Tariffs_CHF = some 0
    ∧ (skuBody ctx sku p o bom).row.ConversionCost_CHF = some 0
    ∧ (skuBody ctx sku p o bom).row.LandedCost_CHF = some 0
    ∧ (skuBody ctx sku p o bom).row.ListPrice_CHF = some 0
    ∧ (skuBody ctx sku p o bom).row.Margin_CHF = some 0
    ∧ (skuBody ctx sku p o bom).row.MarginPct = some 0
    ∧ (skuBody ctx sku p o bom).keptFlows = []
    ∧ (skuBody ctx sku p o bom).fgList = [] := by
  have hline : ∀ lr ∈ (skuBody ctx sku p o bom).lines,
      lr.material = some 0 ∧ lr.logistics = some 0 ∧ lr.tariffValue = some 0
      ∧ lr.flow.cost_value = some 0 := by
    intro lr hlr
    rw [skuBody_lines] at hlr
    obtain ⟨m, hm, rfl⟩ := List.mem_map.mp hlr
    exact processLine_chf_zero ctx h _ sku m
  have hM : (skuBody ctx sku p o bom).material_total = some 0 := by
    rw [skuBody_material_total]
    exact sumF_all_zero _ _ (fun lr hlr => ((hline lr hlr).1))
  have hI : (skuBody ctx sku p o bom).inbound_logistics_total = some 0 := by
    rw [skuBody_inbound_total]
    exact sumF_all_zero _ _ (fun lr hlr => ((hline lr hlr).2.1))
  have hT : (skuBody ctx sku p o bom).component_tariffs_total = some 0 := by
    rw [skuBody_tariffs_total]
    exact sumF_all_zero _ _ (fun lr hlr => ((hline lr hlr).2.2.1))
  have hC : (skuBody ctx sku p o bom).conversion_cost_chf = some 0 := by
    rw [skuBody_conversion]
    exact usd_to_chf_chf_zero _ h _
  have hO : (skuBody ctx sku p o bom).outbound_cost = some 0 := by
    have hp : (skuBody ctx sku p o bom).outbound_cost
        = (lanePairOf ctx.data.FX ctx.include_fixed_fees
            (ctx.data.LogisticsLanes.find? (fun l =>
              l.FromCountry == ctx.assembly_country && l.ToCountry == "United States"))
            p.UnitWeight_kg).1 :=
      congrArg Prod.fst (skuBody_outboundPair ctx sku p o bom)
    rw [hp]
    exact lanePairOf_fst_chf_zero _ h _ _ _
  have hFtv : (skuBody ctx sku p o bom).final_tariff_value = some 0 := by
    rw [skuBody_ftv, hM, hI, hC]
    simp [fadd_some_some, fmul_some_some, zero_mul]
  have hLanded : (skuBody ctx sku p o bom).landed_cost = some 0 := by
    rw [skuBody_landed, hM, hI, hO, hT, hFtv, hC]
    simp [fadd_some_some]
  have hLP : (skuBody ctx sku p o bom).row.ListPrice_CHF = some 0 := by
    rw [skuBody_row_listPrice]
    exact usd_to_chf_chf_zero _ h _
  refine ⟨by rw [skuBody_row_material]; exact hM,
    by rw [skuBody_row_inbound]; exact hI,
    by rw [skuBody_row_outbound]; exact hO,
    by rw [skuBody_row_tariffs, hT, hFtv]; simp [fadd_some_some],
    by rw [skuBody_row_conversion]; exact hC,
    by rw [skuBody_row_landed]; exact hLanded,
    hLP, ?_, ?_, ?_, ?_⟩
  · rw [skuBody_row_margin, hLP, hLanded, fsub_some_some]
    norm_num
  · rw [skuBody_row_marginPct, hLP, truthy_some_zero]
    simp
  · rw [skuBody_keptFlows, List.filterMap_eq_nil_iff]
    intro lr hlr
    rw [(hline lr hlr).2.2.2, fleZero_some_nonpos 0 le_rfl]
    simp
  · rw [skuBody_fgList, hO, hFtv]
    simp only [fadd_some_some, add_zero]
    rw [fgtZero_some_nonpos 0 le_rfl]
    simp

/-- A successful SKU lookup produces exactly a `skuBody` result. -/
theorem processSku_some_eq (ctx : EngineCtx) (sku : String) (c : SkuComp)
    (h : processSku ctx sku = some c) :
    ∃ p o bom, c = skuBody ctx sku p o bom := by
  unfold processSku at h
  cases hp : ctx.data.Products.find? (fun p => p.SKU == sku) with
  | none => rw [hp] at h; cases h
  | some p =>
    rw [hp] at h
    cases ho : ctx.data.AssemblyOptions.find? (fun o =>
        o.SKU == sku && o.AssemblySiteID == ctx.assembly_site_id) with
    | none => rw [ho] at h; cases h
    | some o =>
      rw [ho] at h
      by_cases hb : (ctx.data.BOM.filter (fun b => b.ParentSKU == sku)).isEmpty
      · simp only [hb, if_true] at h
        cases h
      · simp only [hb, Bool.false_eq_true, if_false] at h
        exact ⟨p, o, _, (Option.some.inj h).symm⟩

/-- Claim C10: when the FX table maps CHF to rate `0`, the falsy-rate guard
makes every conversion return `0.0` instead of raising a division error,
and consequently every cost output of the engine is `0.0` (and every flow
edge is filtered out). -/
theorem claim_C10 (data : RefData) (scenario_date assembly_site_id : String)
    (tariff_records : List TariffInputRow) (include_fixed_fees : Bool)
    (hz : seriesGet data.FX "CHF" (some 1) = some 0) :
    (∀ a : F, usd_to_chf a data.FX = some 0)
    ∧ (∀ (a : F) (currency : String), local_to_chf a currency data.FX = some 0)
    ∧ ∀ res, compute_costs data scenario_date assembly_site_id tariff_records
          include_fixed_fees = Except.ok res →
        (∀ r ∈ res.summary,
          r.MaterialCost_CHF = some 0 ∧ r.InboundLogistics_CHF = some 0
          ∧ r.OutboundLogistics_CHF = some 0 ∧ r.Tariffs_CHF = some 0
          ∧ r.ConversionCost_CHF = some 0 ∧ r.LandedCost_CHF = some 0
          ∧ r.ListPrice_CHF = some 0 ∧ r.Margin_CHF = some 0 ∧ r.MarginPct = some 0)
        ∧ res.flows = [] := by
  refine ⟨usd_to_chf_chf_zero data.FX hz, local_to_chf_chf_zero data.FX hz, ?_⟩
  intro res hres
  unfold compute_costs at hres
  cases hfind : data.Sites.find? (fun s => s.SiteID == assembly_site_id) with
  | none =>
    rw [hfind] at hres
    cases hres
  | some site =>
    rw [hfind] at hres
    rw [Except.ok.injEq] at hres
    subst hres
    constructor
    · intro r hr
      obtain ⟨c, hc, rfl⟩ := List.mem_map.mp hr
      obtain ⟨sku, hsku, hps⟩ := List.mem_filterMap.mp hc
      obtain ⟨p, o, bom, rfl⟩ := processSku_some_eq _ sku c hps
      have h := skuBody_chf_zero
        ⟨data, scenario_date, assembly_site_id, site.Country, site.Role,
          tariff_records, include_fixed_fees⟩ sku p o bom hz
      exact ⟨h.1, h.2.1, h.2.2.1, h.2.2.2.1, h.2.2.2.2.1, h.2.2.2.2.2.1,
        h.2.2.2.2.2.2.1, h.2.2.2.2.2.2.2.1, h.2.2.2.2.2.2.2.2.1⟩
    · show List.flatMap _ _ = []
      rw [List.flatMap_eq_nil_iff]
      intro c hc
      obtain ⟨sku, hsku, hps⟩ := List.mem_filterMap.mp hc
      obtain ⟨p, o, bom, rfl⟩ := processSku_some_eq _ sku c hps
      have h := skuBody_chf_zero
        ⟨data, scenario_date, assembly_site_id, site.Country, site.Role,
          tariff_records, include_fixed_fees⟩ sku p o bom hz
      show SkuComp.outFlows _ = []
      rw [SkuComp.outFlows, h.2.2.2.2.2.2.2.2.2.1, h.2.2.2.2.2.2.2.2.2.2]
      rfl

/-- A dataset with no products and a CHF FX rate of zero. -/
def dataZ : RefData :=
  { Products := [], BOM := [], Components := [],
    Sites := [{ SiteID := "S1", Country := "Switzerland", Role := "Assembly" }],
    AssemblyOptions := [], LogisticsLanes := [], Tariffs_US := [],
    FX := [{ Currency := "CHF", USD_per_unit := some 0 }] }

/-- The result `compute_costs dataZ _ "S1" [] false` returns. -/
def resZ : ComputeResult :=
  { summary := [], flows := [], assembly_site := ("S1", "Switzerland", "Assembly") }

/-- Witness for C10 at the concrete zero-CHF table. -/
theorem claim_C10_witness :
    seriesGet dataZ.FX "CHF" (some 1) = some 0
    ∧ usd_to_chf (some 5) dataZ.FX = some 0
    ∧ local_to_chf (some 7) "EUR" dataZ.FX = some 0
    ∧ resZ.flows = [] :=
  ⟨rfl, (claim_C10 dataZ "2025-01-01" "S1" [] false rfl).1 (some 5),
    (claim_C10 dataZ "2025-01-01" "S1" [] false rfl).2.1 (some 7) "EUR",
    ((claim_C10 dataZ "2025-01-01" "S1" [] false rfl).2.2 resZ rfl).2⟩

end TariffApp
